import Mathlib

/-!
Shallow embedding of the fertigation calculator computation engine.

The source is a React Native app (`src/MixDirectScreen.js`, `src/MixStockScreen.js`,
plus older variants of the direct-mix screen embedded in `src/FertilizerDetailScreen.js`
and `src/unnamed/part_001`, `src/unnamed/part_002`).  The numeric core is pure:
for each ingredient row it turns (entered amount, dosing mode, weight unit, vessel
volume) into a canonical grams-per-liter value, accumulates ppm per nutrient, an
EC estimate and a cost.  We model JS numbers by rationals (`ℚ`): every arithmetic
step of the engine is +, *, /, max, comparisons, and every division in the source
is guarded by a positivity test, so the rational semantics matches the real-number
reading of the code exactly.

A raw text input is modelled by its parse result: `Option ℚ`, where `some q` stands
for any string `s` with `Number(s)` equal to the finite value `q` (the empty string
parses to `some 0`, since `Number("") = 0`), and `none` stands for inputs whose
`Number(_)` is `NaN` or infinite.  The helper `num` below is then exactly the
source function `num = (s) => (Number.isFinite(Number(s)) ? Number(s) : 0)`.

Nullable numeric fields of a fertilizer record (such as `npk.N` or `price_per_bag`)
are likewise `Option ℚ` with `none` for `null`/missing/empty values.
-/

namespace FertApp

/-- Source `num` from `src/MixDirectScreen.js` line 92 (identical in `MixStockScreen.js`
line 58): a finite parse is kept, anything else normalizes to `0`. -/
def num (o : Option ℚ) : ℚ := o.getD 0

/-- JS `x || d` on numbers, as used in `num(ecScale) || 1` and `num(ratio) || 200`:
`0` (and, upstream of `num`, `NaN`) is falsy and falls back to the default. -/
def jsOr (x d : ℚ) : ℚ := if x = 0 then d else x

/-- Case-insensitive substring test: lowercase a name the way `name.toLowerCase()`
does and look for a literal pattern.  All regexes in the source are plain
alternations of literal substrings, so this models `/p1|p2|…/.test(n)` per pattern. -/
def lowerStr (s : String) : List Char := s.toList.map Char.toLower

/-- Source `pat` occurs at the start of `l`. -/
def listStartsWith : List Char → List Char → Bool
  | [], _ => true
  | _ :: _, [] => false
  | p :: ps, c :: cs => p == c && listStartsWith ps cs

/-- Source `pat` occurs contiguously somewhere inside `l`. -/
def listHasSub (pat : List Char) : List Char → Bool
  | [] => listStartsWith pat []
  | c :: cs => listStartsWith pat (c :: cs) || listHasSub pat cs

/-- Literal substring occurrence of `pat` inside an already-lowercased name. -/
def hasSubstr (pat : String) (n : List Char) : Bool := listHasSub pat.toList n

/-- Source `/MgO/i.test(name)` from `src/MixDirectScreen.js` line 129. -/
def nameHasMgO (name : String) : Bool := hasSubstr "mgo" (lowerStr name)

/-- Source `MgO_TO_Mg = 0.603` (`src/MixDirectScreen.js` line 24). -/
def MgO_TO_Mg : ℚ := 603 / 1000

/-- Source `inferECk` from `src/MixDirectScreen.js` lines 34-43 (identical in
`MixStockScreen.js` lines 28-37 and as `ecK` in `src/unnamed/part_001`):
an if-chain of case-insensitive substring tests returning an EC coefficient. -/
def inferECk (name : String) : ℚ :=
  let n := lowerStr name
  if hasSubstr "calcinit" n || hasSubstr "calcium nitrate" n || hasSubstr "nitrabor" n then 120/100
  else if hasSubstr "krista k" n || hasSubstr "potassium nitrate" n || hasSubstr "kno3" n then 110/100
  else if hasSubstr "mkp" n || hasSubstr "mono potassium phosphate" n || hasSubstr "kh2po4" n then 90/100
  else if hasSubstr "sop" n || hasSubstr "potassium sulph" n || hasSubstr "potassium sulf" n then 80/100
  else if hasSubstr "magnesium" n || hasSubstr "epsom" n || hasSubstr "krista mgs" n || hasSubstr "mgso4" n then 1
  else if hasSubstr "ferticare" n || hasSubstr "kristalon" n || hasSubstr "npk" n || hasSubstr "complete" n then 110/100
  else 1

/-- The `npk` map of a fertilizer record: percent-by-weight of the six macro
nutrients, nullable (`fert.npk || {}` together with `pct` treats `null`/missing/empty
as zero, which `none` models). -/
structure Npk where
  N : Option ℚ
  P2O5 : Option ℚ
  K2O : Option ℚ
  Ca : Option ℚ
  Mg : Option ℚ
  S : Option ℚ
deriving DecidableEq

/-- The `micro` map: percent-by-weight of the six micro nutrients, nullable. -/
structure Micro where
  Fe : Option ℚ
  Mn : Option ℚ
  Zn : Option ℚ
  Cu : Option ℚ
  B : Option ℚ
  Mo : Option ℚ
deriving DecidableEq

/-- A fertilizer record as selected from the `fertilizers` table
(`id,name,bag_size_kg,price_per_bag,npk,micro`). -/
structure Fert where
  id : Nat
  name : String
  bag_size_kg : Option ℚ
  price_per_bag : Option ℚ
  npk : Npk
  micro : Micro
deriving DecidableEq

/-- Source `pct` from `src/MixDirectScreen.js` line 127:
`(v) => (v==null || v==="" ? 0 : Number(v))`. -/
def pct (o : Option ℚ) : ℚ := o.getD 0

/-- One ingredient row of the direct-mix screen: a fertilizer reference and the
two entry fields `gTotal` / `gPerL` (only the one matching the dose mode is used). -/
structure Row where
  fertId : Option Nat
  gTotal : Option ℚ
  gPerL : Option ℚ
deriving DecidableEq

/-- Source `doseMode`: `"total"` or `"perL"` (`src/MixDirectScreen.js` line 54). -/
inductive DoseMode | total | perL
deriving DecidableEq

/-- Source `weightUnit`: `"g"` or `"kg"` (`src/MixDirectScreen.js` line 50). -/
inductive WeightUnit | g | kg
deriving DecidableEq

/-- Source `unitFactor = weightUnit === "kg" ? 1000 : 1` (`src/MixDirectScreen.js` line 95). -/
def unitFactor : WeightUnit → ℚ
  | .g => 1
  | .kg => 1000

/-- Source `vol = Math.max(0, num(volumeL))` (`src/MixDirectScreen.js` line 93;
`volStock` in `MixStockScreen.js` line 59 is the same expression). -/
def volOf (volIn : Option ℚ) : ℚ := max 0 (num volIn)

/-- Source `getFert = (id) => ferts.find((f) => f.id === id)` (`src/MixDirectScreen.js`
line 94).  A `none` row id matches no record. -/
def getFert (ferts : List Fert) (id : Option Nat) : Option Fert :=
  ferts.find? (fun f => some f.id == id)

/-- Source `gramsTotal` of a row (`src/MixDirectScreen.js` lines 120-122):
`doseMode === "total" ? num(row.gTotal) * unitFactor : num(row.gPerL) * unitFactor * vol`. -/
def gramsTotalOf (mode : DoseMode) (uf vol : ℚ) (r : Row) : ℚ :=
  match mode with
  | .total => num r.gTotal * uf
  | .perL => num r.gPerL * uf * vol

/-- Source `gPerL = vol > 0 ? gramsTotal / vol : 0` (`src/MixDirectScreen.js` line 124);
the canonical grams-per-liter of one row in the direct screen. -/
def lineGPerL (mode : DoseMode) (uf vol : ℚ) (r : Row) : ℚ :=
  if 0 < vol then gramsTotalOf mode uf vol r / vol else 0

/-- Effective Mg percent (`src/MixDirectScreen.js` lines 128-129):
`let Mg_pct = pct(npk.Mg); if (Mg_pct>0 && /MgO/i.test(fert.name||"")) Mg_pct *= MgO_TO_Mg`. -/
def mgPctOf (f : Fert) : ℚ :=
  let p := pct f.npk.Mg
  if 0 < p ∧ nameHasMgO f.name then p * MgO_TO_Mg else p

/-- The twelve accumulated ppm values of a computation result. -/
structure Ppm where
  N : ℚ
  P2O5 : ℚ
  K2O : ℚ
  Ca : ℚ
  Mg : ℚ
  S : ℚ
  Fe : ℚ
  Mn : ℚ
  Zn : ℚ
  Cu : ℚ
  B : ℚ
  Mo : ℚ
deriving DecidableEq

def Ppm.zero : Ppm := ⟨0,0,0,0,0,0,0,0,0,0,0,0⟩

def Ppm.addP (a b : Ppm) : Ppm :=
  ⟨a.N + b.N, a.P2O5 + b.P2O5, a.K2O + b.K2O, a.Ca + b.Ca, a.Mg + b.Mg, a.S + b.S,
   a.Fe + b.Fe, a.Mn + b.Mn, a.Zn + b.Zn, a.Cu + b.Cu, a.B + b.B, a.Mo + b.Mo⟩

/-- Per-line ppm contribution (`src/MixDirectScreen.js` lines 131-143):
each nutrient adds `gPerL * pct(…) * 10`, Mg through `mgPctOf`. -/
def linePpm (f : Fert) (g : ℚ) : Ppm :=
  ⟨g * pct f.npk.N * 10, g * pct f.npk.P2O5 * 10, g * pct f.npk.K2O * 10,
   g * pct f.npk.Ca * 10, g * mgPctOf f * 10, g * pct f.npk.S * 10,
   g * pct f.micro.Fe * 10, g * pct f.micro.Mn * 10, g * pct f.micro.Zn * 10,
   g * pct f.micro.Cu * 10, g * pct f.micro.B * 10, g * pct f.micro.Mo * 10⟩

/-- Per-line cost contribution (`src/MixDirectScreen.js` lines 145-146):
`price = Number(fert.price_per_bag)||0; bagKg = Number(fert.bag_size_kg)||0;
if (price>0 && bagKg>0) cost += gramsTotal * (price/(bagKg*1000))`. -/
def lineCost (f : Fert) (gramsTotal : ℚ) : ℚ :=
  let price := num f.price_per_bag
  let bagKg := num f.bag_size_kg
  if 0 < price ∧ 0 < bagKg then gramsTotal * (price / (bagKg * 1000)) else 0

/-- A computation result: the twelve ppm totals and the accumulated cost. -/
structure MixResult where
  ppm : Ppm
  costRM : ℚ
deriving DecidableEq

def MixResult.zero : MixResult := ⟨Ppm.zero, 0⟩

/-- One iteration of the `results` loop of `src/MixDirectScreen.js`
(lines 115-147): skip unresolved fertilizers, otherwise accumulate ppm and cost. -/
def directStep (ferts : List Fert) (mode : DoseMode) (uf vol : ℚ)
    (acc : MixResult) (r : Row) : MixResult :=
  match getFert ferts r.fertId with
  | none => acc
  | some f =>
    let gramsTotal := gramsTotalOf mode uf vol r
    let g := if 0 < vol then gramsTotal / vol else 0
    ⟨acc.ppm.addP (linePpm f g), acc.costRM + lineCost f gramsTotal⟩

/-- The `results` memo of `src/MixDirectScreen.js` lines 112-149. -/
def directResults (ferts : List Fert) (rows : List Row) (mode : DoseMode)
    (u : WeightUnit) (volIn : Option ℚ) : MixResult :=
  rows.foldl (directStep ferts mode (unitFactor u) (volOf volIn)) MixResult.zero

/-- One iteration of the `ecEstimate` loop (`src/MixDirectScreen.js` lines 155-163). -/
def directECStep (ferts : List Fert) (mode : DoseMode) (uf vol : ℚ)
    (sum : ℚ) (r : Row) : ℚ :=
  match getFert ferts r.fertId with
  | none => sum
  | some f => sum + lineGPerL mode uf vol r * inferECk f.name

/-- The `ecEstimate` memo of `src/MixDirectScreen.js` lines 152-165:
`scale = num(ecScale) || 1`, then the g/L-weighted coefficient sum times `scale`. -/
def directEC (ferts : List Fert) (rows : List Row) (mode : DoseMode)
    (u : WeightUnit) (volIn scaleIn : Option ℚ) : ℚ :=
  let scale := jsOr (num scaleIn) 1
  (rows.foldl (directECStep ferts mode (unitFactor u) (volOf volIn)) 0) * scale

/-! Stock / injector screen (`src/MixStockScreen.js`) -/

/-- One ingredient row of the stock screen: a fertilizer reference and the total
amount entered into the stock tank (`src/MixStockScreen.js` line 56). -/
structure SRow where
  fertId : Option Nat
  gramsTotal : Option ℚ
deriving DecidableEq

/-- Source `injRatio = Math.max(1, num(ratio) || 200)` (`src/MixStockScreen.js` line 60). -/
def injRatioOf (ratioIn : Option ℚ) : ℚ := max 1 (jsOr (num ratioIn) 200)

/-- Source `toGrams = (v) => (weightUnit === "g" ? num(v) : num(v) * 1000)`
(`src/MixStockScreen.js` line 61). -/
def toGrams (u : WeightUnit) (v : Option ℚ) : ℚ :=
  match u with
  | .g => num v
  | .kg => num v * 1000

/-- One iteration of the stock `results` loop (`src/MixStockScreen.js` lines
103-122): `if (!f || !volStock) continue;` then
`gStockPerL = toGrams(r.gramsTotal) / volStock; gDripPerL = gStockPerL / injRatio`,
ppm accumulated from `gDripPerL` and cost from the stock-tank grams. -/
def stockStep (ferts : List Fert) (u : WeightUnit) (volStock injR : ℚ)
    (acc : MixResult) (r : SRow) : MixResult :=
  match getFert ferts r.fertId with
  | none => acc
  | some f =>
    if volStock = 0 then acc
    else
      let gStockPerL := toGrams u r.gramsTotal / volStock
      let gDripPerL := gStockPerL / injR
      ⟨acc.ppm.addP (linePpm f gDripPerL), acc.costRM + lineCost f (toGrams u r.gramsTotal)⟩

/-- The `results` memo of `src/MixStockScreen.js` lines 101-124. -/
def stockResults (ferts : List Fert) (rows : List SRow) (u : WeightUnit)
    (volIn ratioIn : Option ℚ) : MixResult :=
  rows.foldl (stockStep ferts u (volOf volIn) (injRatioOf ratioIn)) MixResult.zero

/-- One iteration of the stock `ecEstimate` loop (`src/MixStockScreen.js` lines
130-134): `gDripPerL = (toGrams(r.gramsTotal)/volStock) / injRatio`. -/
def stockECStep (ferts : List Fert) (u : WeightUnit) (volStock injR : ℚ)
    (sum : ℚ) (r : SRow) : ℚ :=
  match getFert ferts r.fertId with
  | none => sum
  | some f => sum + toGrams u r.gramsTotal / volStock / injR * inferECk f.name

/-- The `ecEstimate` memo of `src/MixStockScreen.js` lines 126-136:
`scale = Number(ecScale) || 1; if (!volStock) return 0;` then the weighted sum
times `scale` (for a parsed scale, `Number(x) || 1` and `num(x) || 1` agree:
`NaN` and `0` both fall back to `1`). -/
def stockEC (ferts : List Fert) (rows : List SRow) (u : WeightUnit)
    (volIn ratioIn scaleIn : Option ℚ) : ℚ :=
  let scale := jsOr (num scaleIn) 1
  let volStock := volOf volIn
  if volStock = 0 then 0
  else (rows.foldl (stockECStep ferts u volStock (injRatioOf ratioIn)) 0) * scale

/-! The direct-mix variant in `src/unnamed/part_001`

Its `results` memo (lines 131-176) computes the per-row grams-per-liter as
`doseMode === "total" ? (vol > 0 ? toGrams(r.gTotal) / vol : 0) : toGrams(r.gPerL)`
(lines 140-143): in per-liter mode the entered amount is used directly, with no
multiplication and division by the vessel volume. -/

/-- The per-row grams-per-liter of the `src/unnamed/part_001` variant
(lines 140-143). -/
def p1GPerL (mode : DoseMode) (u : WeightUnit) (vol : ℚ) (r : Row) : ℚ :=
  match mode with
  | .total => if 0 < vol then toGrams u r.gTotal / vol else 0
  | .perL => toGrams u r.gPerL

/-! The direct-mix variant embedded in `src/FertilizerDetailScreen.js`

The file holds an older `MixDirectScreen` (from line 910 of the concatenated
file) whose `totals` memo (lines 990-1026) uses `ppmFrom` with a heuristic
percent normalization and multiplies EVERY Mg contribution by
`MG_FROM_MGO = 0.603` (line 1005), with no check of the fertilizer name. -/

/-- Source `MG_FROM_MGO = 0.603` (`src/FertilizerDetailScreen.js` line 925). -/
def MG_FROM_MGO : ℚ := 603 / 1000

/-- Source `normalizePct` (`src/FertilizerDetailScreen.js` lines 928-936): macro percents
in `(0,1)` are scaled by 100 and in `[1,3)` by 10; non-positive values become 0.
`isMacro` stands for `MACROS.includes(key)`. -/
def normalizePct (isMacro : Bool) (raw : Option ℚ) : ℚ :=
  let v := num raw
  if v ≤ 0 then 0
  else if isMacro then
    (if 0 < v ∧ v < 1 then v * 100 else if 1 ≤ v ∧ v < 3 then v * 10 else v)
  else v

/-- Source `ppmFrom` (`src/FertilizerDetailScreen.js` lines 938-939):
`num(gPerL) * (normalizePct(key, percent) / 100) * 1000`. -/
def ppmFrom (isMacro : Bool) (percent : Option ℚ) (gPerL : ℚ) : ℚ :=
  gPerL * (normalizePct isMacro percent / 100) * 1000

/-- A fertilizer of the embedded variant, restricted to the fields its Mg
computation reads (`id`, `name`, `npk.Mg`). -/
structure DFert where
  id : Nat
  name : String
  npkMg : Option ℚ
deriving DecidableEq

/-- A row of the embedded variant (`src/FertilizerDetailScreen.js` line 960). -/
structure DRow where
  fertId : Option Nat
  name : String
  gPerL : Option ℚ
  gTotal : Option ℚ
deriving DecidableEq

/-- Source `fertByRow = (row) => allFerts.find((f) => f.id === row.fertId || f.name === row.name)`
(`src/FertilizerDetailScreen.js` line 980). -/
def fertByRow (allFerts : List DFert) (row : DRow) : Option DFert :=
  allFerts.find? (fun f => some f.id == row.fertId || f.name == row.name)

/-- Source `effectiveGPerL` (`src/FertilizerDetailScreen.js` lines 983-984); here `vol`
is `num(volumeL)`, not clamped in this variant. -/
def effectiveGPerL (mode : DoseMode) (vol : ℚ) (row : DRow) : ℚ :=
  match mode with
  | .perL => num row.gPerL
  | .total => if 0 < vol then num row.gTotal / vol else 0

/-- The Mg component of the `totals` accumulator of the embedded variant
(`src/FertilizerDetailScreen.js` lines 998-1007): rows with an unresolved
fertilizer or a zero grams-per-liter are skipped (`if (!fert || !gpl) return`),
otherwise `ppmFrom("Mg", fert.npk?.Mg ?? "", gpl) * MG_FROM_MGO` is added
unconditionally. -/
def detailTotalsMg (allFerts : List DFert) (mode : DoseMode) (volIn : Option ℚ)
    (rows : List DRow) : ℚ :=
  rows.foldl
    (fun acc row =>
      match fertByRow allFerts row with
      | none => acc
      | some f =>
        let gpl := effectiveGPerL mode (num volIn) row
        if gpl = 0 then acc
        else acc + ppmFrom true f.npkMg gpl * MG_FROM_MGO)
    0

/-! Specification-side reference definitions.  These follow the WORDS of the
spec (sections 4.3 and 4.4), to be compared with the definitions above that were
transcribed from the source; they are used only inside theorem statements. -/

/-- Reference definition following the spec wording of section 4.3: an ordered
table of (substring patterns, coefficient) rows, in the fixed priority order
the spec lists. -/
def ecTable : List (List String × ℚ) :=
  [(["calcinit", "calcium nitrate", "nitrabor"], 120/100),
   (["krista k", "potassium nitrate", "kno3"], 110/100),
   (["mkp", "mono potassium phosphate", "kh2po4"], 90/100),
   (["sop", "potassium sulph", "potassium sulf"], 80/100),
   (["magnesium", "epsom", "krista mgs", "mgso4"], 1),
   (["ferticare", "kristalon", "npk", "complete"], 110/100)]

/-- Reference definition following the spec wording: walk the ordered table and
return the coefficient of the FIRST row with a matching pattern; default 1. -/
def firstMatchCoeff : List (List String × ℚ) → List Char → ℚ
  | [], _ => 1
  | (pats, v) :: rest, n =>
    if pats.any (fun p => hasSubstr p n) then v else firstMatchCoeff rest n

/-- Reference definition following the spec wording: the EC coefficient of a
fertilizer name, looked up case-insensitively in the ordered table. -/
def firstCoeff (name : String) : ℚ := firstMatchCoeff ecTable (lowerStr name)

/-- Reference definition following the spec wording of section 4.4:
`deliveredGPerL = (amount_in_grams / stockVolumeL) / injectorRatio`. -/
def deliveredGPerLSpec (u : WeightUnit) (stockVolumeL injectorRatioVal : ℚ)
    (amount : Option ℚ) : ℚ :=
  toGrams u amount / stockVolumeL / injectorRatioVal

/-- Per-line term of the direct-screen EC sum, as accumulated by `directECStep`. -/
def directECTerm (ferts : List Fert) (mode : DoseMode) (uf vol : ℚ) (r : Row) : ℚ :=
  match getFert ferts r.fertId with
  | none => 0
  | some f => lineGPerL mode uf vol r * inferECk f.name

/-- Per-line N contribution of the stock screen, phrased through the spec-side
delivered concentration. -/
def stockNTermSpec (ferts : List Fert) (u : WeightUnit) (volStock injR : ℚ)
    (r : SRow) : ℚ :=
  match getFert ferts r.fertId with
  | none => 0
  | some f => deliveredGPerLSpec u volStock injR r.gramsTotal * pct f.npk.N * 10

/-- Per-line term of the stock-screen EC sum, phrased through the spec-side
delivered concentration. -/
def stockECTermSpec (ferts : List Fert) (u : WeightUnit) (volStock injR : ℚ)
    (r : SRow) : ℚ :=
  match getFert ferts r.fertId with
  | none => 0
  | some f => deliveredGPerLSpec u volStock injR r.gramsTotal * inferECk f.name

/-! Concrete fixtures used by witnesses, counterexamples and the concrete parts
of the claims (the values come from the spec test properties in section 8). -/

/-- A fertilizer named Krista MgS with 10 percent Mg and no other data. -/
def krista : Fert :=
  ⟨1, "Krista MgS", none, none, ⟨none, none, none, none, some 10, none⟩,
    ⟨none, none, none, none, none, none⟩⟩

/-- A fertilizer whose name contains MgO, with 10 percent Mg. -/
def mgoBlend : Fert :=
  ⟨2, "Magnesium MgO Blend", none, none, ⟨none, none, none, none, some 10, none⟩,
    ⟨none, none, none, none, none, none⟩⟩

/-- A fertilizer with 15 percent N and no other data. -/
def fertN15 : Fert :=
  ⟨3, "Generic N", none, none, ⟨some 15, none, none, none, none, none⟩,
    ⟨none, none, none, none, none, none⟩⟩

/-- A fertilizer with a 25 kg bag costing 50. -/
def fertBag : Fert :=
  ⟨4, "Priced", some 25, some 50, ⟨some 15, none, none, none, none, none⟩,
    ⟨none, none, none, none, none, none⟩⟩

/-- A fertilizer with null price and bag size but 15 percent N. -/
def fertNoPrice : Fert :=
  ⟨5, "Unpriced", none, none, ⟨some 15, none, none, none, none, none⟩,
    ⟨none, none, none, none, none, none⟩⟩

/-- The Krista MgS fertilizer as a record of the variant embedded in
`src/FertilizerDetailScreen.js`. -/
def dKrista : DFert := ⟨1, "Krista MgS", some 10⟩

/-- A dose line of the embedded variant selecting `dKrista` at 1 g/L. -/
def dRowKrista : DRow := ⟨some 1, "Krista MgS", some 1, none⟩

/-! Helper lemmas shared by several claim theorems. -/

lemma unitFactor_pos (u : WeightUnit) : 0 < unitFactor u := by
  cases u <;> norm_num [unitFactor]

lemma addP_linePpm_zero (p : Ppm) (f : Fert) : p.addP (linePpm f 0) = p := by
  cases p
  simp [Ppm.addP, linePpm]

lemma directStep_ppm_vol_zero (ferts : List Fert) (mode : DoseMode) (uf : ℚ)
    (acc : MixResult) (r : Row) :
    (directStep ferts mode uf 0 acc r).ppm = acc.ppm := by
  unfold directStep
  cases getFert ferts r.fertId with
  | none => rfl
  | some f => simp [addP_linePpm_zero]

lemma foldl_directStep_ppm_vol_zero (ferts : List Fert) (mode : DoseMode) (uf : ℚ)
    (rows : List Row) : ∀ acc : MixResult,
    (rows.foldl (directStep ferts mode uf 0) acc).ppm = acc.ppm := by
  induction rows with
  | nil => intro acc; rfl
  | cons r rs ih => intro acc; rw [List.foldl_cons, ih, directStep_ppm_vol_zero]

lemma lineGPerL_vol_zero (mode : DoseMode) (uf : ℚ) (r : Row) :
    lineGPerL mode uf 0 r = 0 := by
  simp [lineGPerL]

lemma directECStep_vol_zero (ferts : List Fert) (mode : DoseMode) (uf : ℚ)
    (sum : ℚ) (r : Row) : directECStep ferts mode uf 0 sum r = sum := by
  unfold directECStep
  cases getFert ferts r.fertId with
  | none => rfl
  | some f => simp [lineGPerL_vol_zero]

lemma foldl_directECStep_vol_zero (ferts : List Fert) (mode : DoseMode) (uf : ℚ)
    (rows : List Row) : ∀ acc : ℚ,
    rows.foldl (directECStep ferts mode uf 0) acc = acc := by
  induction rows with
  | nil => intro acc; rfl
  | cons r rs ih => intro acc; rw [List.foldl_cons, directECStep_vol_zero, ih]

lemma foldl_directECStep_eq_sum (ferts : List Fert) (mode : DoseMode) (uf vol : ℚ)
    (rows : List Row) : ∀ acc : ℚ,
    rows.foldl (directECStep ferts mode uf vol) acc
      = acc + (rows.map (directECTerm ferts mode uf vol)).sum := by
  induction rows with
  | nil => intro acc; simp
  | cons r rs ih =>
    intro acc
    rw [List.foldl_cons, ih, List.map_cons, List.sum_cons]
    unfold directECStep directECTerm
    cases getFert ferts r.fertId with
    | none => ring
    | some f => ring

lemma stockStep_vol_zero (ferts : List Fert) (u : WeightUnit) (injR : ℚ)
    (acc : MixResult) (r : SRow) : stockStep ferts u 0 injR acc r = acc := by
  unfold stockStep
  cases getFert ferts r.fertId with
  | none => rfl
  | some f => simp

lemma foldl_stockStep_vol_zero (ferts : List Fert) (u : WeightUnit) (injR : ℚ)
    (rows : List SRow) : ∀ acc : MixResult,
    rows.foldl (stockStep ferts u 0 injR) acc = acc := by
  induction rows with
  | nil => intro acc; rfl
  | cons r rs ih => intro acc; rw [List.foldl_cons, stockStep_vol_zero, ih]

lemma foldl_stockStep_N (ferts : List Fert) (u : WeightUnit) (volStock injR : ℚ)
    (hv : volStock ≠ 0) (rows : List SRow) : ∀ acc : MixResult,
    (rows.foldl (stockStep ferts u volStock injR) acc).ppm.N
      = acc.ppm.N + (rows.map (stockNTermSpec ferts u volStock injR)).sum := by
  induction rows with
  | nil => intro acc; simp
  | cons r rs ih =>
    intro acc
    rw [List.foldl_cons, ih, List.map_cons, List.sum_cons]
    unfold stockStep stockNTermSpec deliveredGPerLSpec
    cases getFert ferts r.fertId with
    | none => ring
    | some f =>
      simp only [hv, if_false, Ppm.addP, linePpm]
      ring

lemma foldl_stockECStep_eq_sum (ferts : List Fert) (u : WeightUnit)
    (volStock injR : ℚ) (rows : List SRow) : ∀ acc : ℚ,
    rows.foldl (stockECStep ferts u volStock injR) acc
      = acc + (rows.map (stockECTermSpec ferts u volStock injR)).sum := by
  induction rows with
  | nil => intro acc; simp
  | cons r rs ih =>
    intro acc
    rw [List.foldl_cons, ih, List.map_cons, List.sum_cons]
    unfold stockECStep stockECTermSpec deliveredGPerLSpec
    cases getFert ferts r.fertId with
    | none => ring
    | some f => ring

lemma inferECk_eq_firstCoeff (name : String) : inferECk name = firstCoeff name := by
  simp only [inferECk, firstCoeff, firstMatchCoeff, ecTable, List.any_cons, List.any_nil,
    Bool.or_false, Bool.or_assoc]

lemma volOf_pos_eq (volIn : Option ℚ) (hv : 0 < num volIn) : volOf volIn = num volIn :=
  max_eq_right hv.le

lemma num_some (q : ℚ) : num (some q) = q := rfl

/-- C3: the direct-screen EC estimate equals the (effective) scale times the sum
over dose lines of the delivered grams-per-liter weighted by a coefficient that
is a first-match lookup of the fertilizer name in the fixed ordered table
(calcium-nitrate-type 1.20, potassium-nitrate-type 1.10,
mono-potassium-phosphate-type 0.90, potassium-sulfate-type 0.80, magnesium-type
1.00, NPK-blend-type 1.10, default 1.00); a name matching several patterns gets
the earliest matching row. -/
theorem C3_ec_estimate :
    (∀ name : String, inferECk name = firstCoeff name) ∧
    (∀ (ferts : List Fert) (rows : List Row) (mode : DoseMode) (u : WeightUnit)
        (volIn scaleIn : Option ℚ), num scaleIn ≠ 0 →
        directEC ferts rows mode u volIn scaleIn
          = num scaleIn
              * (rows.map (directECTerm ferts mode (unitFactor u) (volOf volIn))).sum) := by
  constructor
  · exact inferECk_eq_firstCoeff
  · intro ferts rows mode u volIn scaleIn hs
    unfold directEC
    rw [foldl_directECStep_eq_sum]
    simp only [jsOr, hs, if_false, zero_add]
    ring

/-- Witness for C3 at a concrete input. -/
theorem C3_ec_estimate_witness :
    num (some (11/10 : ℚ)) ≠ 0 ∧
    directEC [krista] [⟨some 1, none, some 2⟩] .perL .g (some 100) (some (11/10))
      = num (some (11/10 : ℚ))
          * (([(⟨some 1, none, some 2⟩ : Row)]).map
              (directECTerm [krista] .perL (unitFactor .g) (volOf (some 100)))).sum :=
  ⟨by norm_num [num],
   C3_ec_estimate.2 [krista] [⟨some 1, none, some 2⟩] .perL .g (some 100) (some (11/10))
     (by norm_num [num])⟩

/-- C5 (amended): the effective injector ratio is always at least 1 and every
NONZERO parse below 1 is clamped to exactly 1; an input parsing to 0 (or not
parsing at all) instead falls back to the default 200. -/
theorem C5_injector_ratio_clamp :
    (∀ ratioIn : Option ℚ, 1 ≤ injRatioOf ratioIn) ∧
    (∀ ratioIn : Option ℚ, num ratioIn ≠ 0 → num ratioIn < 1 → injRatioOf ratioIn = 1) ∧
    injRatioOf (some 0) = 200 ∧ injRatioOf none = 200 := by
  refine ⟨fun o => le_max_left 1 _, fun o h0 h1 => ?_, ?_, ?_⟩
  · unfold injRatioOf jsOr
    rw [if_neg h0]
    exact max_eq_left h1.le
  · norm_num [injRatioOf, jsOr, num]
  · norm_num [injRatioOf, jsOr, num]

/-- Witness for C5 at a concrete input: one half is clamped to 1. -/
theorem C5_injector_ratio_clamp_witness :
    num (some (1/2 : ℚ)) ≠ 0 ∧ num (some (1/2 : ℚ)) < 1 ∧
    injRatioOf (some (1/2)) = 1 :=
  ⟨by norm_num [num], by norm_num [num],
   C5_injector_ratio_clamp.2.1 (some (1/2)) (by norm_num [num]) (by norm_num [num])⟩

/-- C5 counterexample: an injector-ratio input that parses to 0 is NOT clamped
to 1; the `num(ratio) || 200` fallback turns it into the default 200. -/
theorem C5_counterexample :
    injRatioOf (some 0) = 200 ∧ (200 : ℚ) ≠ 1 := by
  constructor
  · norm_num [injRatioOf, jsOr, num]
  · norm_num

/-- C6: with a vessel volume parsing to 0 and dose mode total-in-vessel, all
twelve ppm values of the direct-screen result and the EC estimate are exactly 0
(in this rational model every value is a finite rational by construction, so no
NaN or infinity can appear; the source obtains the same through the
`vol > 0 ? _ : 0` guards). -/
theorem C6_zero_volume_safety (ferts : List Fert) (rows : List Row) (u : WeightUnit)
    (volIn scaleIn : Option ℚ) (hv : num volIn = 0) :
    (directResults ferts rows .total u volIn).ppm = Ppm.zero ∧
    directEC ferts rows .total u volIn scaleIn = 0 := by
  have h0 : volOf volIn = 0 := by simp [volOf, hv]
  constructor
  · unfold directResults
    rw [h0, foldl_directStep_ppm_vol_zero]
    rfl
  · unfold directEC
    rw [h0, foldl_directECStep_vol_zero, zero_mul]

/-- Witness for C6 at a concrete input. -/
theorem C6_zero_volume_safety_witness :
    num (some (0:ℚ)) = 0 ∧
    ((directResults [krista] [⟨some 1, some 500, none⟩] .total .g (some 0)).ppm = Ppm.zero ∧
      directEC [krista] [⟨some 1, some 500, none⟩] .total .g (some 0) (some (11/10)) = 0) :=
  ⟨by norm_num [num],
   C6_zero_volume_safety [krista] [⟨some 1, some 500, none⟩] .g (some 0) (some (11/10))
     (by norm_num [num])⟩

/-- C9: a dose line whose fertilizer has a missing, null, zero or negative
price or bag size contributes exactly 0 cost, while the per-line ppm
contribution does not depend on the price and bag-size fields at all; all
definitions involved are total, so no error can be raised. -/
theorem C9_missing_price_cost_zero :
    (∀ (f : Fert) (g : ℚ), ¬(0 < num f.price_per_bag ∧ 0 < num f.bag_size_kg) →
        lineCost f g = 0) ∧
    (∀ (f : Fert) (p b : Option ℚ) (g : ℚ),
        linePpm { f with price_per_bag := p, bag_size_kg := b } g = linePpm f g) := by
  constructor
  · intro f g h
    simp only [lineCost]
    rw [if_neg h]
  · intro f p b g
    rfl

/-- Witness for C9 at a concrete input: a null-priced fertilizer costs 0. -/
theorem C9_missing_price_cost_zero_witness :
    ¬(0 < num fertNoPrice.price_per_bag ∧ 0 < num fertNoPrice.bag_size_kg) ∧
    lineCost fertNoPrice 500 = 0 :=
  ⟨by norm_num [num, fertNoPrice],
   C9_missing_price_cost_zero.1 fertNoPrice 500 (by norm_num [num, fertNoPrice])⟩

/-- C10: with a stock volume parsing to 0 the stock screen skips every dose
line, so the whole result (cost included) is zero; the direct screen with
vessel volume 0 under total-in-vessel mode still accrues the full cost from the
entered grams (here 500 g of a 25 kg bag at 50 costs 1). -/
theorem C10_stock_zero_skips_cost :
    (∀ (ferts : List Fert) (rows : List SRow) (u : WeightUnit) (volIn ratioIn : Option ℚ),
        num volIn = 0 → stockResults ferts rows u volIn ratioIn = MixResult.zero) ∧
    (directResults [fertBag] [⟨some 4, some 500, none⟩] .total .g (some 0)).costRM = 1 := by
  constructor
  · intro ferts rows u volIn ratioIn hv
    unfold stockResults
    have h0 : volOf volIn = 0 := by simp [volOf, hv]
    rw [h0, foldl_stockStep_vol_zero]
  · simp +decide [directResults, directStep, getFert, fertBag, lineCost, gramsTotalOf,
      num, volOf, MixResult.zero, unitFactor]
    norm_num

/-- Witness for C10 at a concrete input. -/
theorem C10_stock_zero_skips_cost_witness :
    num (some (0:ℚ)) = 0 ∧
    stockResults [fertBag] [⟨some 4, some 2000⟩] .g (some 0) (some 200) = MixResult.zero :=
  ⟨by norm_num [num],
   C10_stock_zero_skips_cost.1 [fertBag] [⟨some 4, some 2000⟩] .g (some 0) (some 200)
     (by norm_num [num])⟩

/-- C1 (amended): in the mix-screen computations the per-line Mg ppm
contribution is `gPerL * (p * 0.603) * 10` when the resolved fertilizer name
contains the substring MgO case-insensitively and `gPerL * p * 10` otherwise;
in particular Krista MgS with Mg 10 at 1 g/L yields 100 and Magnesium MgO Blend
with Mg 10 at 1 g/L yields 60.3 there.  (The variant embedded in
`src/FertilizerDetailScreen.js` instead multiplies every Mg contribution by
0.603, see the counterexample.) -/
theorem C1_mg_oxide_conditional :
    (∀ (ferts : List Fert) (r : Row) (f : Fert) (mode : DoseMode) (u : WeightUnit)
        (volIn : Option ℚ), getFert ferts r.fertId = some f →
        (directResults ferts [r] mode u volIn).ppm.Mg
          = lineGPerL mode (unitFactor u) (volOf volIn) r *
              (if 0 < pct f.npk.Mg ∧ nameHasMgO f.name
               then pct f.npk.Mg * (603/1000) else pct f.npk.Mg) * 10) ∧
    (directResults [krista] [⟨some 1, none, some 1⟩] .perL .g (some 100)).ppm.Mg = 100 ∧
    (directResults [mgoBlend] [⟨some 2, none, some 1⟩] .perL .g (some 100)).ppm.Mg
      = 603/10 := by
  refine ⟨fun ferts r f mode u volIn hf => ?_, ?_, ?_⟩
  · unfold directResults
    rw [List.foldl_cons, List.foldl_nil]
    unfold directStep
    rw [hf]
    simp only [Ppm.addP, linePpm, mgPctOf, MgO_TO_Mg, lineGPerL, MixResult.zero, Ppm.zero]
    ring
  · simp +decide [directResults, directStep, getFert, krista, linePpm, mgPctOf, pct,
      gramsTotalOf, num, volOf, Ppm.addP, Ppm.zero, MixResult.zero, MgO_TO_Mg, unitFactor]
    norm_num
  · simp +decide [directResults, directStep, getFert, mgoBlend, linePpm, mgPctOf, pct,
      gramsTotalOf, num, volOf, Ppm.addP, Ppm.zero, MixResult.zero, MgO_TO_Mg, unitFactor]
    norm_num

/-- Witness for C1 at a concrete input: the general per-line formula applied to
the MgO-named fixture. -/
theorem C1_mg_oxide_conditional_witness :
    getFert [mgoBlend] (some 2) = some mgoBlend ∧
    (directResults [mgoBlend] [⟨some 2, none, some 1⟩] .perL .g (some 100)).ppm.Mg
      = lineGPerL .perL (unitFactor .g) (volOf (some 100)) ⟨some 2, none, some 1⟩ *
          (if 0 < pct mgoBlend.npk.Mg ∧ nameHasMgO mgoBlend.name
           then pct mgoBlend.npk.Mg * (603/1000) else pct mgoBlend.npk.Mg) * 10 :=
  ⟨by decide,
   C1_mg_oxide_conditional.1 [mgoBlend] ⟨some 2, none, some 1⟩ mgoBlend .perL .g (some 100)
     (by decide)⟩

/-- C1 counterexample: the `totals` computation embedded in
`src/FertilizerDetailScreen.js` multiplies the Mg contribution of the
non-MgO-named Krista MgS (Mg 10, 1 g/L) by 0.603 as well, yielding 60.3 where
the claim requires 100. -/
theorem C1_counterexample :
    detailTotalsMg [dKrista] .perL (some 100) [dRowKrista] = 603/10 ∧
    detailTotalsMg [dKrista] .perL (some 100) [dRowKrista] ≠ 100 := by
  have h : detailTotalsMg [dKrista] .perL (some 100) [dRowKrista] = 603/10 := by
    simp +decide [detailTotalsMg, fertByRow, dKrista, dRowKrista, effectiveGPerL,
      ppmFrom, normalizePct, num, MG_FROM_MGO]
    norm_num
  exact ⟨h, by rw [h]; norm_num⟩

/-- C2: in the stock/injector screen, the concentration feeding both the ppm
accumulation and the EC sum of every dose line is
`(amount_in_grams / stockVolumeL) / injectorRatio`; in particular stock volume
100 L, ratio 200, amount 2000 g, N 15 yields ppm.N = 15. -/
theorem C2_stock_dilution :
    (∀ (ferts : List Fert) (rows : List SRow) (u : WeightUnit)
        (volIn ratioIn scaleIn : Option ℚ), 0 < num volIn →
        (stockResults ferts rows u volIn ratioIn).ppm.N
          = (rows.map (stockNTermSpec ferts u (num volIn) (injRatioOf ratioIn))).sum ∧
        stockEC ferts rows u volIn ratioIn scaleIn
          = jsOr (num scaleIn) 1
              * (rows.map (stockECTermSpec ferts u (num volIn) (injRatioOf ratioIn))).sum) ∧
    (stockResults [fertN15] [⟨some 3, some 2000⟩] .g (some 100) (some 200)).ppm.N = 15 := by
  constructor
  · intro ferts rows u volIn ratioIn scaleIn hv
    have h0 : volOf volIn = num volIn := volOf_pos_eq volIn hv
    have hne : num volIn ≠ 0 := ne_of_gt hv
    constructor
    · unfold stockResults
      rw [h0, foldl_stockStep_N ferts u (num volIn) (injRatioOf ratioIn) hne]
      simp [MixResult.zero, Ppm.zero]
    · unfold stockEC
      rw [h0]
      rw [if_neg hne, foldl_stockECStep_eq_sum]
      ring
  · simp +decide [stockResults, stockStep, getFert, fertN15, linePpm, pct, toGrams,
      num, volOf, injRatioOf, jsOr, Ppm.addP, Ppm.zero, MixResult.zero]
    norm_num

/-- Witness for C2 at the concrete dilution inputs of the claim. -/
theorem C2_stock_dilution_witness :
    0 < num (some (100:ℚ)) ∧
    ((stockResults [fertN15] [⟨some 3, some 2000⟩] .g (some 100) (some 200)).ppm.N
        = (([(⟨some 3, some 2000⟩ : SRow)]).map
            (stockNTermSpec [fertN15] .g (num (some 100)) (injRatioOf (some 200)))).sum ∧
      stockEC [fertN15] [⟨some 3, some 2000⟩] .g (some 100) (some 200) (some 1)
        = jsOr (num (some 1)) 1
            * (([(⟨some 3, some 2000⟩ : SRow)]).map
                (stockECTermSpec [fertN15] .g (num (some 100)) (injRatioOf (some 200)))).sum) :=
  ⟨by norm_num [num],
   C2_stock_dilution.1 [fertN15] [⟨some 3, some 2000⟩] .g (some 100) (some 200) (some 1)
     (by norm_num [num])⟩

/-- C4 (amended): the canonical grams-per-liter is nonnegative whenever the
entered amount does not parse to a negative number; non-numeric, empty and
non-finite amounts normalize to exactly 0 (giving canonical value 0).  An
amount string parsing to a negative number propagates as a negative canonical
value, see the counterexample. -/
theorem C4_amount_normalization :
    (∀ (mode : DoseMode) (u : WeightUnit) (volIn : Option ℚ) (r : Row),
        0 ≤ num r.gTotal → 0 ≤ num r.gPerL →
        0 ≤ lineGPerL mode (unitFactor u) (volOf volIn) r) ∧
    (∀ (mode : DoseMode) (u : WeightUnit) (volIn : Option ℚ),
        lineGPerL mode (unitFactor u) (volOf volIn) ⟨none, none, none⟩ = 0) ∧
    num none = 0 := by
  refine ⟨fun mode u volIn r h1 h2 => ?_, fun mode u volIn => ?_, rfl⟩
  · unfold lineGPerL
    split
    · next hvol =>
      apply div_nonneg _ hvol.le
      cases mode with
      | total => exact mul_nonneg h1 (unitFactor_pos u).le
      | perL =>
        exact mul_nonneg (mul_nonneg h2 (unitFactor_pos u).le) (le_max_left 0 _)
    · exact le_refl 0
  · cases mode <;> simp [lineGPerL, gramsTotalOf, num]

/-- Witness for C4 at a concrete input. -/
theorem C4_amount_normalization_witness :
    0 ≤ num ((⟨none, some 7, none⟩ : Row)).gTotal ∧
    0 ≤ num ((⟨none, some 7, none⟩ : Row)).gPerL ∧
    0 ≤ lineGPerL .total (unitFactor .g) (volOf (some 100)) ⟨none, some 7, none⟩ :=
  ⟨by norm_num [num], by norm_num [num],
   C4_amount_normalization.1 .total .g (some 100) ⟨none, some 7, none⟩
     (by norm_num [num]) (by norm_num [num])⟩

/-- C4 counterexample: an amount string parsing to -5 in per-liter mode at
100 L gives a canonical grams-per-liter of -5, which is negative, contradicting
the claimed unconditional nonnegativity. -/
theorem C4_counterexample :
    lineGPerL .perL (unitFactor .g) (volOf (some 100)) ⟨none, none, some (-5)⟩ = -5 ∧
    ¬(0 ≤ lineGPerL .perL (unitFactor .g) (volOf (some 100)) ⟨none, none, some (-5)⟩) := by
  have h : lineGPerL .perL (unitFactor .g) (volOf (some 100)) ⟨none, none, some (-5)⟩
      = -5 := by
    norm_num [lineGPerL, gramsTotalOf, num, volOf, unitFactor]
  exact ⟨h, by rw [h]; norm_num⟩

/-- C7: a dose line of amount A entered total-in-vessel and a dose line of
amount A divided by V entered per-liter (vessel volume V positive) contribute
the identical cost `A_in_grams * pricePerBag / (bagSizeKg * 1000)`; concretely
a 25 kg bag at 50 with 500 g total in 100 L and with 5 g per liter in 100 L
each cost exactly 1. -/
theorem C7_cost_mode_invariance :
    (∀ (f : Fert) (A : ℚ) (volIn : Option ℚ) (u : WeightUnit),
        0 < num f.price_per_bag → 0 < num f.bag_size_kg → 0 < num volIn →
        lineCost f (gramsTotalOf .total (unitFactor u) (volOf volIn) ⟨none, some A, none⟩)
            = A * unitFactor u * (num f.price_per_bag / (num f.bag_size_kg * 1000)) ∧
        lineCost f (gramsTotalOf .perL (unitFactor u) (volOf volIn)
              ⟨none, none, some (A / num volIn)⟩)
            = A * unitFactor u * (num f.price_per_bag / (num f.bag_size_kg * 1000))) ∧
    (directResults [fertBag] [⟨some 4, some 500, none⟩] .total .g (some 100)).costRM = 1 ∧
    (directResults [fertBag] [⟨some 4, none, some 5⟩] .perL .g (some 100)).costRM = 1 := by
  refine ⟨fun f A volIn u hp hb hv => ?_, ?_, ?_⟩
  · have h0 : volOf volIn = num volIn := volOf_pos_eq volIn hv
    have hne : num volIn ≠ 0 := ne_of_gt hv
    constructor
    · simp only [lineCost, gramsTotalOf]
      rw [if_pos ⟨hp, hb⟩, num_some]
    · simp only [lineCost, gramsTotalOf]
      rw [if_pos ⟨hp, hb⟩, h0, num_some]
      field_simp
  · simp +decide [directResults, directStep, getFert, fertBag, lineCost, gramsTotalOf,
      num, volOf, MixResult.zero, unitFactor]
    norm_num
  · simp +decide [directResults, directStep, getFert, fertBag, lineCost, gramsTotalOf,
      num, volOf, MixResult.zero, unitFactor]
    norm_num

/-- Witness for C7 at the concrete inputs of the claim. -/
theorem C7_cost_mode_invariance_witness :
    0 < num fertBag.price_per_bag ∧ 0 < num fertBag.bag_size_kg ∧
    0 < num (some (100:ℚ)) ∧
    (lineCost fertBag
        (gramsTotalOf .total (unitFactor .g) (volOf (some 100)) ⟨none, some 500, none⟩)
      = 500 * unitFactor .g
          * (num fertBag.price_per_bag / (num fertBag.bag_size_kg * 1000)) ∧
     lineCost fertBag
        (gramsTotalOf .perL (unitFactor .g) (volOf (some 100))
          ⟨none, none, some (500 / num (some (100:ℚ)))⟩)
      = 500 * unitFactor .g
          * (num fertBag.price_per_bag / (num fertBag.bag_size_kg * 1000))) :=
  ⟨by norm_num [num, fertBag], by norm_num [num, fertBag], by norm_num [num],
   C7_cost_mode_invariance.1 fertBag 500 (some 100) .g
     (by norm_num [num, fertBag]) (by norm_num [num, fertBag]) (by norm_num [num])⟩

/-- C8 (amended): in per-liter mode the canonical grams-per-liter equals the
amount converted to grams whenever the vessel volume is positive (in both
`src/MixDirectScreen.js` and the `src/unnamed/part_001` variant); at vessel
volume 0 the `src/unnamed/part_001` variant still returns the amount in grams
for ANY volume, while `src/MixDirectScreen.js` returns 0. -/
theorem C8_perL_canonical :
    (∀ (u : WeightUnit) (volIn : Option ℚ) (r : Row), 0 < num volIn →
        lineGPerL .perL (unitFactor u) (volOf volIn) r = num r.gPerL * unitFactor u) ∧
    (∀ (u : WeightUnit) (vol : ℚ) (r : Row),
        p1GPerL .perL u vol r = num r.gPerL * unitFactor u) ∧
    lineGPerL .perL (unitFactor .g) (volOf (some 0)) ⟨none, none, some 5⟩ = 0 := by
  refine ⟨fun u volIn r hv => ?_, fun u vol r => ?_, ?_⟩
  · have h0 : volOf volIn = num volIn := volOf_pos_eq volIn hv
    have hne : num volIn ≠ 0 := ne_of_gt hv
    rw [lineGPerL, h0, if_pos hv]
    simp only [gramsTotalOf]
    field_simp
  · cases u <;> simp [p1GPerL, toGrams, unitFactor]
  · norm_num [lineGPerL, volOf, num]

/-- Witness for C8 at a concrete input. -/
theorem C8_perL_canonical_witness :
    0 < num (some (100:ℚ)) ∧
    lineGPerL .perL (unitFactor .g) (volOf (some 100)) ⟨none, none, some 5⟩
      = num (some (5:ℚ)) * unitFactor .g :=
  ⟨by norm_num [num],
   C8_perL_canonical.1 .g (some 100) ⟨none, none, some 5⟩ (by norm_num [num])⟩

/-- C8 counterexample: in `src/MixDirectScreen.js`, per-liter mode with vessel
volume 0 yields canonical grams-per-liter 0 for an entered 5 g/L, not the
amount in grams 5, contradicting independence from the vessel volume. -/
theorem C8_counterexample :
    lineGPerL .perL (unitFactor .g) (volOf (some 0)) ⟨none, none, some 5⟩ = 0 ∧
    num (some (5:ℚ)) * unitFactor .g = 5 ∧ (0:ℚ) ≠ 5 := by
  refine ⟨?_, ?_, by norm_num⟩
  · norm_num [lineGPerL, volOf, num]
  · norm_num [num, unitFactor]

end FertApp
